import Mathlib

/-!
Verification development for a chat-automation bot (three source variants in
one file).  The embedding models the per-conversation history store, the
alternation repair, the history trimming, the reply-decision policy, the
admin reset command, the response-probability gate, and the per-thread
sequential task queue.  External collaborators (platform client, Gemini API)
are modelled by explicit oracles: each external call result is an input, and
each outbound call is recorded as an `Effect`.
-/

namespace ChatBot

/-- Turn of a conversation history: the JS objects `{role, parts:[{text}]}`. -/
structure Turn where
  role : String
  parts : List String
deriving DecidableEq, Repr

/-- Outbound calls issued by the bot, in issue order.  `classify` and
`aiReply` are the calls to the Gemini API (filter and main call); the other
constructors are calls to the platform client. -/
inductive Effect where
  | classify : Effect
  | aiReply : Effect
  | reaction (emoji messageID : String) : Effect
  | send (text threadID : String) (tagged : Bool) : Effect
  | typing (threadID : String) : Effect
deriving DecidableEq, Repr

/-- Character-list test: `needle` occurs at the head of the second list. -/
def leadsWith : List Char → List Char → Bool
  | [], _ => true
  | _ :: _, [] => false
  | a :: as, b :: bs => a == b && leadsWith as bs

/-- Character-list substring occurrence, the semantics of JS `includes`. -/
def containsRun (needle : List Char) : List Char → Bool
  | [] => needle.isEmpty
  | c :: rest => leadsWith needle (c :: rest) || containsRun needle rest

/-- JS `hay.includes(needle)` on strings. -/
def strIncludes (hay needle : String) : Bool :=
  containsRun needle.data hay.data

/-- JS `toLowerCase` (ASCII relevant range). -/
def lowerStr (s : String) : String :=
  String.mk (s.data.map Char.toLower)

/-- JS `toUpperCase` (ASCII relevant range). -/
def upperStr (s : String) : String :=
  String.mk (s.data.map Char.toUpper)

/-- Whitespace recognised by the trim model. -/
def isWsChar (c : Char) : Bool :=
  c == ' ' || c == '\t' || c == '\n' || c == '\r'

/-- JS `trim`: strip leading and trailing whitespace. -/
def trimStr (s : String) : String :=
  String.mk (((s.data.dropWhile isWsChar).reverse.dropWhile isWsChar).reverse)

/-- Test that no two consecutive turns of a history share a role (the
alternation well-formedness invariant of §3 of the design). -/
def noAdjacentSameRole : List Turn → Bool
  | a :: b :: rest => (a.role != b.role) && noAdjacentSameRole (b :: rest)
  | _ => true

/-- JS `arr.splice(i, 0, x)`: insert `x` at index `i`. -/
def spliceIn (i : Nat) (x : Turn) (l : List Turn) : List Turn :=
  l.take i ++ x :: l.drop i

namespace V1

/-!
First source variant: flat-array history (`threadHistory`), a fused
classify/decide filter call returning MESSAGE / REACTION / IGNORE, a
response-probability gate, and an admin `!history reset` command guarded by
an allow-list.
-/

/-- Configuration fields of the first variant that the core logic reads. -/
structure Config where
  RESPONSE_PROBABILITY : ℚ
  CONTEXT_WINDOW : Nat
  ADMIN_UIDS : List String

/-- Inbound task (the first variant destructures `attachments` but never
reads them, so only the used fields are modelled). -/
structure Task where
  senderID : String
  threadID : String
  messageID : String
  body : String
deriving Repr

/-- Oracle for the random draws and the two Gemini calls of one task.
`Except.error m` models a thrown error with message `m`; `Except.ok none`
models a response whose `text` field is absent. -/
structure Oracle where
  gateDraw : ℚ
  filterText : Except String (Option String)
  reactionIdx : Nat
  geminiText : Except String (Option String)

/-- Observable outcome of one `processMessageWithGemini` run: the in-memory
history map, the queue-existence map (`threadQueues`), the outbound calls in
order, and how many times `saveHistory` ran. -/
structure Result where
  history : String → List Turn
  queues : String → Bool
  effects : List Effect
  saves : Nat

/-- Reaction emoji list of the first variant (source line 113). -/
def reactions : List String :=
  ["ðŸ‘", "â¤ï¸", "ðŸ˜‚", "ðŸ˜®", "ðŸ˜¢", "ðŸ˜¡"]

/-- Word characters of the JS regex character class. -/
def isWordChar (c : Char) : Bool :=
  c.isAlphanum || c == '_'

/-- Normalisation of the filter response (source line 107):
`(text?.trim().toUpperCase() || "IGNORE").replace(non-word, "")`. -/
def normalizeAction (t : Option String) : String :=
  let s := upperStr (trimStr (t.getD ""))
  let s := if s = "" then "IGNORE" else s
  String.mk (s.data.filter isWordChar)

/-- History append followed by the trim of source lines 120-121:
push the turn, then drop the first two entries when the length exceeds
`CONTEXT_WINDOW * 2`. -/
def appendAndTrim (w : Nat) (h : List Turn) (t : Turn) : List Turn :=
  let h' := h ++ [t]
  if w * 2 < h'.length then h'.drop 2 else h'

/-- Role of the `k`-th turn from the end (`k = 1` is the last turn). -/
def lastRole (h : List Turn) (k : Nat) : String :=
  (h.getD (h.length - k) ⟨"", []⟩).role

/-- Alternation repair of source lines 124-131: when the last two turns are
both `user`, splice a `model` placeholder at index `length - 2`; when the
last two turns are both `model`, splice a `user` placeholder at index
`length - 1`. -/
def repairHistory (h0 : List Turn) : List Turn :=
  let h1 :=
    if 1 < h0.length ∧ lastRole h0 1 = "user" ∧ lastRole h0 2 = "user" then
      spliceIn (h0.length - 2) ⟨"model", ["..."]⟩ h0
    else h0
  if 1 < h1.length ∧ lastRole h1 1 = "model" ∧ lastRole h1 2 = "model" then
    spliceIn (h1.length - 1) ⟨"user", ["..."]⟩ h1
  else h1

/-- Core task processing of the first variant (source lines 73-154).  The
prompt strings fed to the external calls are not materialised: the calls
are recorded as effects and their outcomes come from the oracle.  An absent
history key is identified with the empty list (source line 92 initialises
absent keys to `[]`). -/
def processMessageWithGemini (cfg : Config) (hist : String → List Turn)
    (queues : String → Bool) (task : Task) (o : Oracle) : Result :=
  if cfg.ADMIN_UIDS.contains task.senderID ∧ trimStr task.body = "!history reset" then
    { history := Function.update hist task.threadID [], queues := queues,
      effects := [], saves := 1 }
  else if cfg.RESPONSE_PROBABILITY < o.gateDraw then
    { history := hist, queues := queues, effects := [], saves := 0 }
  else
    let queues := Function.update queues task.threadID true
    let tid := task.threadID
    let history := hist tid
    let userInput := if task.body = "" then "User sent an attachment." else task.body
    match o.filterText with
    | .error msg =>
      if strIncludes (lowerStr msg) "block" then
        { history := Function.update hist tid [], queues := queues,
          effects := [.classify], saves := 1 }
      else
        { history := hist, queues := queues, effects := [.classify], saves := 0 }
    | .ok t =>
      let action := normalizeAction t
      if action = "IGNORE" then
        { history := hist, queues := queues, effects := [.classify], saves := 0 }
      else if action = "REACTION" then
        { history := hist, queues := queues,
          effects := [.classify,
            .reaction (reactions.getD (o.reactionIdx % reactions.length) "") task.messageID],
          saves := 0 }
      else if action = "MESSAGE" then
        let h1 := appendAndTrim cfg.CONTEXT_WINDOW history ⟨"user", [userInput]⟩
        let h2 := repairHistory h1
        match o.geminiText with
        | .error msg =>
          if strIncludes (lowerStr msg) "block" then
            { history := Function.update hist tid [], queues := queues,
              effects := [.classify, .aiReply], saves := 1 }
          else
            { history := Function.update hist tid h2, queues := queues,
              effects := [.classify, .aiReply], saves := 0 }
        | .ok none =>
          { history := Function.update hist tid h2, queues := queues,
            effects := [.classify, .aiReply], saves := 0 }
        | .ok (some gtext) =>
          { history := Function.update hist tid (h2 ++ [⟨"model", [gtext]⟩]),
            queues := queues,
            effects := [.classify, .aiReply, .send gtext tid false], saves := 1 }
      else
        { history := hist, queues := queues, effects := [.classify], saves := 0 }

end V1

namespace V2

/-!
Second source variant: session-object history (`chatSessions` caches a live
Gemini chat per thread, `persistedHistory` is the snapshot map), an
explicit-address short-circuit, a YES/NO classifier (`shouldBotReply`),
a three-way `getReplyAction` draw, and a self-addressed `!history reset`.
-/

/-- Configuration fields of the second variant that the core logic reads.
`pReply` and `pReact` are `PROBABILITIES.REPLY` and `PROBABILITIES.REACT`. -/
structure Config where
  BOT_NAME : String
  pReply : ℚ
  pReact : ℚ
  REACTIONS : List String

/-- Inbound platform event (the fields the second variant reads). -/
structure Attachment where
  type : String
  caption : String
  name : String
  title : String
deriving Repr

/-- Inbound platform event of the second variant. -/
structure Event where
  type : String
  senderID : String
  threadID : String
  messageID : String
  body : String
  senderName : String
  attachments : List Attachment
deriving Repr

/-- Mutable state of the second variant: the live-session cache (holding
each live session history) and the persisted history map.  An absent key
of `persistedHistory` is identified with the empty list. -/
structure State where
  chatSessions : String → Option (List Turn)
  persistedHistory : String → List Turn

/-- Oracle for the random draws and external-call outcomes of one task.
`classifierText` is the raw text of the filter call inside `shouldBotReply`
(`Except.error` models a thrown call); `sessionReply` is the model text the
live chat session returns for the single `chat.sendMessage` the task makes. -/
structure Oracle where
  classifierText : Except String String
  actionDraw : ℚ
  sessionReply : Except String String
  tagDraw : ℚ
  reactionIdx : Nat

/-- Observable outcome of one `processMessage` run.  `branch` records which
action branch of the DECIDE stage ran (`none` when DECIDE was not reached). -/
structure Result where
  st : State
  effects : List Effect
  saves : Nat
  branch : Option String

/-- Session history the task sees: the live session when one exists,
otherwise the persisted history the fresh session is started from
(`getChatSession`, source lines 251-261). -/
def sessionOf (st : State) (tid : String) : List Turn :=
  match st.chatSessions tid with
  | some h => h
  | none => st.persistedHistory tid

/-- Session-cache effect of `getChatSession`: create the live session from
the persisted history when absent. -/
def ensureSession (st : State) (tid : String) : State :=
  match st.chatSessions tid with
  | some _ => st
  | none =>
    { st with chatSessions := Function.update st.chatSessions tid (some (st.persistedHistory tid)) }

/-- Effect of `chat.sendMessage` on the session history: the user turn and
the model reply are appended (what `chat.getHistory()` then returns). -/
def chatSend (sess : List Turn) (msg reply : String) : List Turn :=
  sess ++ [⟨"user", [msg]⟩, ⟨"model", [reply]⟩]

/-- Classifier wrapper `shouldBotReply` (source lines 263-274): a thrown
call yields `false`; otherwise the trimmed lowercased response must contain
`"yes"`. -/
def shouldBotReply (resp : Except String String) : Bool :=
  match resp with
  | .error _ => false
  | .ok t => strIncludes (lowerStr (trimStr t)) "yes"

/-- Three-way action draw `getReplyAction` (source lines 276-281). -/
def getReplyAction (pReply pReact : ℚ) (r : ℚ) : String :=
  if r < pReply then "MESSAGE"
  else if r < pReply + pReact then "REACTION"
  else "IGNORE"

/-- Attachment description switch (source lines 345-367). -/
def attachmentDescription (a : Attachment) : String :=
  if a.type = "photo" ∨ a.type = "video" then
    let caption := if a.caption = "" then "" else " with the caption: \"" ++ a.caption ++ "\""
    " (The user also sent a " ++ a.type ++ caption ++ ". Respond to the media naturally.)"
  else if a.type = "file" ∨ a.type = "audio" then
    " (The user sent a voice clip or file named: " ++ a.name ++ ". Acknowledge it.)"
  else if a.type = "sticker" then
    " (The user sent a sticker. React to the sticker\x27s mood, which is generally fun/casual.)"
  else if a.type = "share" then
    " (The user shared a link titled: " ++ (if a.title = "" then "Link" else a.title) ++ ". Address the link briefly.)"
  else
    " (The user sent an unrecognized media attachment.)"

/-- Attachment processing of the second variant: returns the (possibly
sticker-substituted) user message and the description suffix. -/
def processAttachment (body : String) (atts : List Attachment) : String × String :=
  match atts with
  | [] => (body, "")
  | a :: _ =>
    let desc := attachmentDescription a
    let full := if a.type = "sticker" ∧ body = "" then "They sent a sticker." else body
    (full, desc)

/-- Reaction emoji pick. -/
def pickReaction (cfg : Config) (idx : Nat) : String :=
  cfg.REACTIONS.getD (idx % cfg.REACTIONS.length) ""

/-- Core task processing of the second variant (source lines 316-459).
Prompt strings fed to external calls are not materialised; the calls are
recorded as effects and their outcomes come from the oracle.  A thrown
`chat.sendMessage` in the IGNORE branch propagates to the queue worker and
is modelled as ending the task with no further state change. -/
def processMessage (cfg : Config) (selfID : String) (st : State) (e : Event)
    (o : Oracle) : Result :=
  if e.type = "message" ∧ e.senderID ≠ selfID then
    let tid := e.threadID
    if lowerStr e.body = "!history reset" ∧ tid = e.senderID then
      match st.chatSessions tid with
      | some _ =>
        { st := { chatSessions := Function.update st.chatSessions tid none,
                  persistedHistory := Function.update st.persistedHistory tid [] },
          effects := [.send "Memory for this chat wiped. Starting fresh! ✨" tid false],
          saves := 1, branch := none }
      | none =>
        { st := st,
          effects := [.send "Memory already clear, chief. You\x27re good to go!" tid false],
          saves := 0, branch := none }
    else
      let st1 := ensureSession st tid
      let sess := sessionOf st tid
      let fm := processAttachment e.body e.attachments
      let fullUserMessage := fm.1
      let attachmentDesc := fm.2
      let hasAttachment := ¬ e.attachments.isEmpty
      let isExplicitlyAddressed := strIncludes (lowerStr fullUserMessage) cfg.BOT_NAME
      let shouldProceed :=
        if isExplicitlyAddressed ∨ hasAttachment then true
        else shouldBotReply o.classifierText
      let classifyEff : List Effect :=
        if isExplicitlyAddressed ∨ hasAttachment then [] else [.classify]
      if shouldProceed then
        let action := getReplyAction cfg.pReply cfg.pReact o.actionDraw
        if action = "REACTION" then
          match o.sessionReply with
          | .ok reply =>
            let sess' := chatSend sess (fullUserMessage ++ attachmentDesc) reply
            { st := { chatSessions := Function.update st1.chatSessions tid (some sess'),
                      persistedHistory := Function.update st1.persistedHistory tid sess' },
              effects := classifyEff ++
                [.reaction (pickReaction cfg o.reactionIdx) e.messageID, .aiReply],
              saves := 1, branch := some "REACTION" }
          | .error _ =>
            { st := st1,
              effects := classifyEff ++
                [.reaction (pickReaction cfg o.reactionIdx) e.messageID, .aiReply],
              saves := 0, branch := some "REACTION" }
        else if action = "MESSAGE" then
          let msgToAI :=
            (if fullUserMessage = "" then "The user sent media." else fullUserMessage) ++ attachmentDesc
          match o.sessionReply with
          | .ok reply =>
            let aiReply := trimStr reply
            let sess' := chatSend sess msgToAI reply
            let shouldTag := o.tagDraw < (1 : ℚ) / 10 ∨ tid ≠ e.senderID
            { st := { chatSessions := Function.update st1.chatSessions tid (some sess'),
                      persistedHistory := Function.update st1.persistedHistory tid sess' },
              effects := classifyEff ++
                [.typing tid, .aiReply, .send aiReply tid shouldTag],
              saves := 1, branch := some "MESSAGE" }
          | .error _ =>
            { st := st1,
              effects := classifyEff ++
                [.typing tid, .aiReply,
                 .send "Ugh, my internet is glitching rn. Totes can\x27t connect!" tid false],
              saves := 0, branch := some "MESSAGE" }
        else
          match o.sessionReply with
          | .ok reply =>
            let sess' := chatSend sess (fullUserMessage ++ attachmentDesc) reply
            { st := { chatSessions := Function.update st1.chatSessions tid (some sess'),
                      persistedHistory := Function.update st1.persistedHistory tid sess' },
              effects := classifyEff ++ [.aiReply],
              saves := 1, branch := some "IGNORE" }
          | .error _ =>
            { st := st1, effects := classifyEff ++ [.aiReply],
              saves := 0, branch := some "IGNORE" }
      else
        { st := st1, effects := classifyEff, saves := 0, branch := none }
  else
    { st := st, effects := [], saves := 0, branch := none }

end V2

namespace V3

/-- Three-way action draw of the third variant (source lines 617-628), a
running-cumulative formulation over `PROBABILITIES.MESSAGE` and
`PROBABILITIES.REACTION`. -/
def getReplyAction (pMessage pReaction : ℚ) (r : ℚ) : String :=
  let cumulative : ℚ := 0
  let cumulative := cumulative + pMessage
  if r < cumulative then "MESSAGE"
  else
    let cumulative := cumulative + pReaction
    if r < cumulative then "REACTION"
    else "IGNORE"

end V3

namespace Q

/-!
Per-thread queue worker.  The worker body (try / catch / finally-callback,
source lines 57-68 and 301-309) is taken from the source; the concurrency-1
drain loop of the external `async.queue` library is modelled from the spec:
the worker takes the next queued task after the previous one finishes, and
a caught error never stops the loop.
-/

/-- Worker body: run one task, catching any raised error (the catch logs
and falls through to the finally-callback).  `true` means the task ran
without error. -/
def workerStep {τ : Type} (run : τ → Except String Unit) (t : τ) : Bool :=
  match run t with
  | .ok _ => true
  | .error _ => false

/-- Modelled from the spec: the concurrency-1 FIFO drain loop of the
external `async.queue` — each task of the queue is handed to the worker in
arrival order, one at a time, and the loop continues past failures. -/
def drainQueue {τ : Type} (run : τ → Except String Unit) : List τ → List (τ × Bool)
  | [] => []
  | t :: ts => (t, workerStep run t) :: drainQueue run ts

end Q

namespace Sched

/-!
Interleaving model of the per-conversation queues of §5 of the design:
one single-concurrency FIFO queue per conversation id, all multiplexed over
one cooperative scheduler.  Modelled from the spec (the queue discipline
lives in the external `async` library): a step either enqueues a task,
starts the head task of an idle queue, or finishes the running task of a
queue.  `arrived` is the ghost arrival order of each id.
-/

/-- Per-conversation queue state. -/
structure QueueSt where
  pending : List Nat
  running : List Nat
  done : List Nat
  arrived : List Nat
deriving DecidableEq, Repr

/-- Modelled from the spec: the system state of the dispatch layer, one
queue per conversation id, created lazily (an untouched id simply holds the
empty queue). -/
def SysState : Type := String → QueueSt

/-- Initial queue. -/
def initQ : QueueSt := ⟨[], [], [], []⟩

/-- Initial system state: every queue empty. -/
def initSys : SysState := fun _ => initQ

/-- Modelled from the spec: one step of the cooperative scheduler
multiplexing the per-conversation single-concurrency queues (the queue
drain discipline lives in the external `async` library, not under src/):
enqueue a task, start the head task of an idle queue, or finish the
running task of a queue. -/
inductive QStep : SysState → SysState → Prop
  | enqueue (s : SysState) (id : String) (t : Nat) :
      QStep s (Function.update s id
        { s id with pending := (s id).pending ++ [t], arrived := (s id).arrived ++ [t] })
  | start (s : SysState) (id : String) (t : Nat) (rest : List Nat)
      (hr : (s id).running = []) (hp : (s id).pending = t :: rest) :
      QStep s (Function.update s id { s id with pending := rest, running := [t] })
  | finish (s : SysState) (id : String) (t : Nat)
      (hr : (s id).running = [t]) :
      QStep s (Function.update s id
        { s id with running := [], done := (s id).done ++ [t] })

/-- States reachable from the empty system. -/
def Reachable (s : SysState) : Prop :=
  Relation.ReflTransGen QStep initSys s

end Sched

/-! ## Concrete fixtures used by the claim theorems and witnesses -/

/-- Fixture for the C2 witness: a full two-turn alternating history. -/
def fullPair : List Turn := [⟨"user", ["x"]⟩, ⟨"model", ["y"]⟩]

/-- Fixture for the C2 witness: the appended user turn. -/
def newUserTurn : Turn := ⟨"user", ["z"]⟩

/-- Fixture for the C3 counterexample: no admin, gate always passes. -/
def igCfg : V1.Config where
  RESPONSE_PROBABILITY := 1
  CONTEXT_WINDOW := 4
  ADMIN_UIDS := []

/-- Fixture for the C3 counterexample: a thread with existing history. -/
def igHist : String → List Turn :=
  Function.update (fun _ => []) "t1" [⟨"user", ["earlier"]⟩]

/-- Fixture for the C3 counterexample: an ordinary user message. -/
def igTask : V1.Task where
  senderID := "u9"
  threadID := "t1"
  messageID := "m1"
  body := "hello"

/-- Fixture for the C3 counterexample: the filter call answers IGNORE. -/
def igOracle : V1.Oracle where
  gateDraw := 0
  filterText := Except.ok (some "IGNORE")
  reactionIdx := 0
  geminiText := Except.ok none

/-- Fixture for the C3-amended witness: session-variant configuration. -/
def c3Cfg2 : V2.Config where
  BOT_NAME := "max"
  pReply := 0
  pReact := 0
  REACTIONS := ["x"]

/-- Fixture for the C3-amended witness: empty maps. -/
def c3St : V2.State where
  chatSessions := fun _ => none
  persistedHistory := fun _ => []

/-- Fixture for the C3-amended witness: a message naming the bot. -/
def c3Event : V2.Event where
  type := "message"
  senderID := "u1"
  threadID := "t5"
  messageID := "m"
  body := "hey Max are you there"
  senderName := "n"
  attachments := []

/-- Fixture for the C3-amended witness: draw 0 falls through to IGNORE
(both weights are zero) and the session call succeeds. -/
def c3Oracle : V2.Oracle where
  classifierText := Except.error "unused"
  actionDraw := 0
  sessionReply := Except.ok "ok then"
  tagDraw := 0
  reactionIdx := 0

/-- Fixture for the C4 witness: an unaddressed plain message. -/
def c4Event : V2.Event where
  type := "message"
  senderID := "u1"
  threadID := "t5"
  messageID := "m"
  body := "what a nice day"
  senderName := "n"
  attachments := []

/-- Fixture for the C4 witness: the classifier call throws. -/
def c4Oracle : V2.Oracle where
  classifierText := Except.error "network down"
  actionDraw := 0
  sessionReply := Except.ok "r"
  tagDraw := 0
  reactionIdx := 0

/-- Fixture for the C7 counterexample: the session-variant state has a
non-empty persisted history for thread `u1` but no live chat session. -/
def c7St : V2.State where
  chatSessions := fun _ => none
  persistedHistory := Function.update (fun _ => []) "u1" [⟨"user", ["hi"]⟩]

/-- Fixture for the C7 counterexample: a self-addressed reset command. -/
def c7Event : V2.Event where
  type := "message"
  senderID := "u1"
  threadID := "u1"
  messageID := "m"
  body := "!history reset"
  senderName := "n"
  attachments := []

/-- Fixture for the C7 counterexample: oracle (never consulted). -/
def c7Oracle : V2.Oracle where
  classifierText := Except.error "unused"
  actionDraw := 0
  sessionReply := Except.ok "r"
  tagDraw := 0
  reactionIdx := 0

/-- Fixture for the C7-amended witness: allow-listed admin sender. -/
def c7Cfg1 : V1.Config where
  RESPONSE_PROBABILITY := 1
  CONTEXT_WINDOW := 4
  ADMIN_UIDS := ["a1"]

/-- Fixture for the C7-amended witness: the admin reset task. -/
def c7Task : V1.Task where
  senderID := "a1"
  threadID := "t1"
  messageID := "m1"
  body := " !history reset "

/-- Fixture for the C7-amended witness: session-variant state with a live
session for the self-addressed thread. -/
def c7StLive : V2.State where
  chatSessions := Function.update (fun _ => none) "u1" (some [⟨"user", ["hi"]⟩])
  persistedHistory := Function.update (fun _ => []) "u1" [⟨"user", ["hi"]⟩]

/-- Fixture for the C8 witness: the first task of the queue raises, the
second succeeds. -/
def runFail0 : Nat → Except String Unit :=
  fun n => if n = 0 then Except.error "task failure" else Except.ok ()

/-- Trace state: task 1 enqueued for conversation A. -/
def sE1 : Sched.SysState :=
  Function.update Sched.initSys "A" { Sched.initSys "A" with pending := (Sched.initSys "A").pending ++ [1], arrived := (Sched.initSys "A").arrived ++ [1] }

/-- Trace state: task 2 then enqueued for conversation B. -/
def sE2 : Sched.SysState :=
  Function.update sE1 "B" { sE1 "B" with pending := (sE1 "B").pending ++ [2], arrived := (sE1 "B").arrived ++ [2] }

/-- Trace state: conversation B starts its task while A stays idle. -/
def sE3 : Sched.SysState :=
  Function.update sE2 "B" { sE2 "B" with pending := [], running := [2] }

/-- Trace state: conversation B finishes its task; task 1 still pending. -/
def sE4 : Sched.SysState :=
  Function.update sE3 "B" { sE3 "B" with running := [], done := (sE3 "B").done ++ [2] }

/-- Fixture for the C10 witness: no admin allow-list, gate probability 0. -/
def gateCfg : V1.Config where
  RESPONSE_PROBABILITY := 0
  CONTEXT_WINDOW := 4
  ADMIN_UIDS := []

/-- Fixture for the C10 witness: a message that explicitly names the bot. -/
def gateTask : V1.Task where
  senderID := "u7"
  threadID := "t7"
  messageID := "m7"
  body := "hey bot, are you there?"

/-- Fixture for the C10 witness: the gate draw exceeds the probability. -/
def gateOracle : V1.Oracle where
  gateDraw := 1
  filterText := Except.ok (some "MESSAGE")
  reactionIdx := 0
  geminiText := Except.ok (some "hi")

/-- Fixture for the C2 counterexample: a context window of one pair, so the
claimed cap is two turns. -/
def c2Cfg : V1.Config where
  RESPONSE_PROBABILITY := 1
  CONTEXT_WINDOW := 1
  ADMIN_UIDS := []

/-- Fixture for the C2 counterexample: the first message task. -/
def c2TaskA : V1.Task where
  senderID := "u9"
  threadID := "t1"
  messageID := "mA"
  body := "one"

/-- Fixture for the C2 counterexample: the second message task. -/
def c2TaskB : V1.Task where
  senderID := "u9"
  threadID := "t1"
  messageID := "mB"
  body := "two"

/-- Fixture for the C2 counterexample: a MESSAGE verdict whose reply call
throws with a non-block error, so the pushed user turn survives in memory
with no model turn after it. -/
def c2OErr : V1.Oracle where
  gateDraw := 0
  filterText := Except.ok (some "MESSAGE")
  reactionIdx := 0
  geminiText := Except.error "boom"

/-- Fixture for the C2 counterexample: a MESSAGE verdict whose reply call
succeeds. -/
def c2OOk : V1.Oracle where
  gateDraw := 0
  filterText := Except.ok (some "MESSAGE")
  reactionIdx := 0
  geminiText := Except.ok (some "reply")

/-- Fixture for the C2 counterexample: the history map after the first
task (one dangling user turn). -/
def c2H1 : String → List Turn := Function.update (fun _ => []) "t1" [⟨"user", ["one"]⟩]

/-- Fixture for the C2 counterexample: the stored history after the second
task — repair placeholder, two user turns, model reply — of length
`2 * CONTEXT_WINDOW + 2`, because neither the repair insertion nor the
reply push (source line 141) is followed by a trim. -/
def c2HBig : List Turn :=
  [⟨"model", ["..."]⟩, ⟨"user", ["one"]⟩, ⟨"user", ["two"]⟩, ⟨"model", ["reply"]⟩]

/-! ## Helper lemmas -/

theorem noAdj_tail (a : Turn) (l : List Turn)
    (h : noAdjacentSameRole (a :: l) = true) : noAdjacentSameRole l = true := by
  cases l with
  | nil => rfl
  | cons b r =>
    have := (Bool.and_eq_true _ _).mp h
    exact this.2

theorem noAdj_drop (n : Nat) : ∀ l : List Turn,
    noAdjacentSameRole l = true → noAdjacentSameRole (l.drop n) = true := by
  induction n with
  | zero => intro l h; simpa using h
  | succ m ih =>
    intro l h
    cases l with
    | nil => simpa using h
    | cons a r =>
      simpa using ih r (noAdj_tail a r h)

theorem ensureSession_persisted (st : V2.State) (tid : String) :
    (V2.ensureSession st tid).persistedHistory = st.persistedHistory := by
  unfold V2.ensureSession
  cases st.chatSessions tid <;> rfl

theorem getReplyAction_tri (p q r : ℚ) :
    V2.getReplyAction p q r = "MESSAGE" ∨ V2.getReplyAction p q r = "REACTION"
      ∨ V2.getReplyAction p q r = "IGNORE" := by
  unfold V2.getReplyAction
  split_ifs <;> simp

theorem drain_length {τ : Type} (run : τ → Except String Unit) :
    ∀ ts : List τ, (Q.drainQueue run ts).length = ts.length := by
  intro ts
  induction ts with
  | nil => rfl
  | cons t ts ih => simpa [Q.drainQueue] using ih

theorem drain_append {τ : Type} (run : τ → Except String Unit) (ts ts' : List τ) :
    Q.drainQueue run (ts ++ ts') = Q.drainQueue run ts ++ Q.drainQueue run ts' := by
  induction ts with
  | nil => rfl
  | cons t rest ih => simpa [Q.drainQueue] using ih

/-! ## Claim theorems -/

/-- C1: the pre-call alternation repair is claimed to insert the placeholder
immediately before the second of two trailing consecutive `user` turns and
to restore alternation.  Evaluating the repair of the source (splice at
index `length - 2`) on a history of two `user` turns shows the placeholder
lands before the first of the pair and the two `user` turns stay adjacent,
so the history still has two consecutive turns of the same role: the code
contradicts its own comment ("Ensure history alternates correctly before
sending"). -/
theorem repair_misplaces_placeholder_eval :
    V1.repairHistory [⟨"user", ["a"]⟩, ⟨"user", ["b"]⟩]
      = [⟨"model", ["..."]⟩, ⟨"user", ["a"]⟩, ⟨"user", ["b"]⟩]
    ∧ noAdjacentSameRole
        (V1.repairHistory [⟨"user", ["a"]⟩, ⟨"user", ["b"]⟩]) = false := by
  exact ⟨by decide, by decide⟩

/-- C2 amended: when the cap is exceeded the trim result is exactly the
input minus its first two turns (the oldest pair); alternation is
preserved; for a well-formed history (alternating, starting with a `user`
turn, roles drawn from user/model) the dropped pair is one `user` turn
followed by one `model` turn; and the `2 * CONTEXT_WINDOW` cap holds after
the trim conditionally on the stored history respecting the cap before the
append.  The original unconditional cap is false of the program: the
repair insertions and the reply push (source line 141) are not followed by
a trim, so the stored history can exceed the cap by two and the next trim
leaves it one over the cap — see the counterexample. -/
theorem append_trim_caps_history (w : Nat) (h : List Turn) (t : Turn)
    (hlen : h.length ≤ w * 2) :
    (V1.appendAndTrim w h t).length ≤ w * 2
    ∧ (w * 2 < (h ++ [t]).length → V1.appendAndTrim w h t = (h ++ [t]).drop 2)
    ∧ (noAdjacentSameRole (h ++ [t]) = true →
        noAdjacentSameRole (V1.appendAndTrim w h t) = true)
    ∧ (w * 2 < (h ++ [t]).length → h.head?.map Turn.role = some "user" →
        noAdjacentSameRole h = true →
        (∀ x ∈ h, x.role = "user" ∨ x.role = "model") →
        ((h ++ [t]).take 2).map Turn.role = ["user", "model"]) := by
  have hL : (h ++ [t]).length = h.length + 1 := by simp
  by_cases hc : w * 2 < (h ++ [t]).length
  · have he : V1.appendAndTrim w h t = (h ++ [t]).drop 2 := by
      unfold V1.appendAndTrim
      rw [if_pos hc]
    refine ⟨?_, fun _ => he, fun halt => ?_, fun _ hhead halt hroles => ?_⟩
    · rw [he]
      simp only [List.length_drop]
      omega
    · rw [he]
      exact noAdj_drop 2 _ halt
    · cases h with
      | nil => simp at hhead
      | cons a h' =>
        cases h' with
        | nil =>
          rw [hL] at hc
          simp at hc hlen
          omega
        | cons b h'' =>
          have ha : a.role = "user" := by simpa using hhead
          have hne : a.role ≠ b.role := by
            have := (Bool.and_eq_true _ _).mp halt
            simpa using this.1
          have hb : b.role = "model" := by
            rcases hroles b (by simp) with hu | hm
            · exact absurd (ha.trans hu.symm) hne
            · exact hm
          simp [ha, hb]
  · have he : V1.appendAndTrim w h t = h ++ [t] := by
      unfold V1.appendAndTrim
      rw [if_neg hc]
    refine ⟨?_, fun hco => absurd hco hc, fun halt => ?_, fun hco => absurd hco hc⟩
    · rw [he, hL]
      omega
    · rw [he]
      exact halt

/-- C2 witness: a full two-turn history with window 1 takes the trim branch
and all four conjuncts hold at the concrete input. -/
theorem append_trim_caps_history_witness :
    (fullPair.length ≤ 1 * 2)
    ∧ ((V1.appendAndTrim 1 fullPair newUserTurn).length ≤ 1 * 2
      ∧ (1 * 2 < (fullPair ++ [newUserTurn]).length →
          V1.appendAndTrim 1 fullPair newUserTurn = (fullPair ++ [newUserTurn]).drop 2)
      ∧ (noAdjacentSameRole (fullPair ++ [newUserTurn]) = true →
          noAdjacentSameRole (V1.appendAndTrim 1 fullPair newUserTurn) = true)
      ∧ (1 * 2 < (fullPair ++ [newUserTurn]).length →
          fullPair.head?.map Turn.role = some "user" →
          noAdjacentSameRole fullPair = true →
          (∀ x ∈ fullPair, x.role = "user" ∨ x.role = "model") →
          ((fullPair ++ [newUserTurn]).take 2).map Turn.role = ["user", "model"])) :=
  ⟨by decide, append_trim_caps_history 1 fullPair newUserTurn (by decide)⟩

/-- C2 counterexample: a reachable run violates the unconditional cap.
With `CONTEXT_WINDOW = 1` (cap 2): a MESSAGE task whose reply call throws
leaves the stored history at one dangling user turn; the next MESSAGE task
appends a user turn (no trim at length 2), the repair inserts a placeholder
and the successful reply push brings the stored, persisted history to
length 4 = cap + 2; appending the next user turn then trims only one pair,
leaving length 3 > 2 immediately after the trim step — the history length
does exceed `2 * CONTEXT_WINDOW` after trimming. -/
theorem trim_cap_overflow_counterexample :
    (V1.processMessageWithGemini c2Cfg (fun _ => []) (fun _ => false) c2TaskA c2OErr).history "t1"
        = [⟨"user", ["one"]⟩]
    ∧ (V1.processMessageWithGemini c2Cfg c2H1 (fun _ => false) c2TaskB c2OOk).history "t1" = c2HBig
    ∧ (V1.processMessageWithGemini c2Cfg c2H1 (fun _ => false) c2TaskB c2OOk).saves = 1
    ∧ c2Cfg.CONTEXT_WINDOW * 2 < c2HBig.length
    ∧ (V1.appendAndTrim c2Cfg.CONTEXT_WINDOW c2HBig ⟨"user", ["three"]⟩).length
        = c2Cfg.CONTEXT_WINDOW * 2 + 1
    ∧ ¬((V1.appendAndTrim c2Cfg.CONTEXT_WINDOW c2HBig ⟨"user", ["three"]⟩).length
        ≤ c2Cfg.CONTEXT_WINDOW * 2) := by
  refine ⟨by with_unfolding_all decide, by with_unfolding_all decide,
    by with_unfolding_all decide, by decide, by decide, by decide⟩

/-- C3 counterexample: in the first source variant, a task whose decision
draw is IGNORE ends with the conversation history untouched (the user turn
is NOT appended) and zero snapshot saves, contradicting the claim that the
IGNORE branch still appends the user turn and persists. -/
theorem ignore_branch_counterexample_flat_variant :
    V1.normalizeAction (some "IGNORE") = "IGNORE"
    ∧ (V1.processMessageWithGemini igCfg igHist (fun _ => false) igTask igOracle).history "t1"
        = [⟨"user", ["earlier"]⟩]
    ∧ (V1.processMessageWithGemini igCfg igHist (fun _ => false) igTask igOracle).saves = 0
    ∧ (V1.processMessageWithGemini igCfg igHist (fun _ => false) igTask igOracle).effects
        = [Effect.classify] := by
  refine ⟨by decide, by with_unfolding_all decide, by with_unfolding_all decide,
    by with_unfolding_all decide⟩

/-- C3 amended: in the session-based variant, every task that reaches
DECIDE — whether through the address short-circuit, through an attachment,
or through an affirmative classifier — and draws IGNORE appends the user
turn (together with the model turn of the context-logging call) to the
conversation history, persists it, and makes no outbound platform call
(every effect is an AI-provider call: the classifier when consulted, and
the session call); in the flat-history variant the IGNORE verdict instead
returns with the history untouched and nothing persisted. -/
theorem ignore_appends_only_in_session_variant
    (cfg : V2.Config) (selfID : String) (st : V2.State) (e : V2.Event) (o : V2.Oracle)
    (rep : String)
    (htype : e.type = "message") (hself : e.senderID ≠ selfID)
    (hreset : ¬(lowerStr e.body = "!history reset" ∧ e.threadID = e.senderID))
    (hproc : (strIncludes (lowerStr (V2.processAttachment e.body e.attachments).1) cfg.BOT_NAME = true
        ∨ ¬ e.attachments.isEmpty = true)
      ∨ V2.shouldBotReply o.classifierText = true)
    (ha1 : ¬ o.actionDraw < cfg.pReply) (ha2 : ¬ o.actionDraw < cfg.pReply + cfg.pReact)
    (hrep : o.sessionReply = Except.ok rep)
    (cfg1 : V1.Config) (hist : String → List Turn) (q : String → Bool)
    (task : V1.Task) (o1 : V1.Oracle) (t0 : Option String)
    (hadm : ¬(cfg1.ADMIN_UIDS.contains task.senderID = true
        ∧ trimStr task.body = "!history reset"))
    (hgate : ¬ cfg1.RESPONSE_PROBABILITY < o1.gateDraw)
    (hfil : o1.filterText = Except.ok t0)
    (hact : V1.normalizeAction t0 = "IGNORE") :
    ((V2.processMessage cfg selfID st e o).st.persistedHistory e.threadID
        = V2.chatSend (V2.sessionOf st e.threadID)
            ((V2.processAttachment e.body e.attachments).1
              ++ (V2.processAttachment e.body e.attachments).2) rep
      ∧ (V2.processMessage cfg selfID st e o).saves = 1
      ∧ (V2.processMessage cfg selfID st e o).branch = some "IGNORE"
      ∧ (∀ ef ∈ (V2.processMessage cfg selfID st e o).effects,
          ef = Effect.classify ∨ ef = Effect.aiReply))
    ∧ ((V1.processMessageWithGemini cfg1 hist q task o1).history = hist
      ∧ (V1.processMessageWithGemini cfg1 hist q task o1).saves = 0
      ∧ (V1.processMessageWithGemini cfg1 hist q task o1).effects = [Effect.classify]) := by
  constructor
  · have hA : V2.getReplyAction cfg.pReply cfg.pReact o.actionDraw = "IGNORE" := by
      unfold V2.getReplyAction
      rw [if_neg ha1, if_neg ha2]
    simp only [V2.processMessage]
    rw [if_pos ⟨htype, hself⟩, if_neg hreset]
    by_cases hC : (strIncludes (lowerStr (V2.processAttachment e.body e.attachments).1)
        cfg.BOT_NAME = true ∨ ¬ e.attachments.isEmpty = true)
    · simp only [if_pos hC]
      rw [hA]
      simp [hrep]
    · have hsbr : V2.shouldBotReply o.classifierText = true := hproc.resolve_left hC
      simp only [if_neg hC]
      rw [hA]
      simp [hrep, hsbr]
  · unfold V1.processMessageWithGemini
    rw [if_neg hadm, if_neg hgate]
    simp [hfil, hact]

/-- C3-amended witness: both halves hold at concrete inputs, the
session-variant half entered through the address short-circuit route. -/
theorem ignore_appends_only_in_session_variant_witness :
    (c3Event.type = "message" ∧ c3Event.senderID ≠ "bot"
      ∧ ¬(lowerStr c3Event.body = "!history reset" ∧ c3Event.threadID = c3Event.senderID)
      ∧ ((strIncludes (lowerStr (V2.processAttachment c3Event.body c3Event.attachments).1)
            c3Cfg2.BOT_NAME = true
          ∨ ¬ c3Event.attachments.isEmpty = true)
        ∨ V2.shouldBotReply c3Oracle.classifierText = true)
      ∧ ¬ c3Oracle.actionDraw < c3Cfg2.pReply
      ∧ ¬ c3Oracle.actionDraw < c3Cfg2.pReply + c3Cfg2.pReact
      ∧ c3Oracle.sessionReply = Except.ok "ok then")
    ∧ (((V2.processMessage c3Cfg2 "bot" c3St c3Event c3Oracle).st.persistedHistory c3Event.threadID
        = V2.chatSend (V2.sessionOf c3St c3Event.threadID)
            ((V2.processAttachment c3Event.body c3Event.attachments).1
              ++ (V2.processAttachment c3Event.body c3Event.attachments).2) "ok then"
      ∧ (V2.processMessage c3Cfg2 "bot" c3St c3Event c3Oracle).saves = 1
      ∧ (V2.processMessage c3Cfg2 "bot" c3St c3Event c3Oracle).branch = some "IGNORE"
      ∧ (∀ ef ∈ (V2.processMessage c3Cfg2 "bot" c3St c3Event c3Oracle).effects,
          ef = Effect.classify ∨ ef = Effect.aiReply))
    ∧ ((V1.processMessageWithGemini igCfg igHist (fun _ => false) igTask
          { igOracle with gateDraw := 0 }).history = igHist
      ∧ (V1.processMessageWithGemini igCfg igHist (fun _ => false) igTask
          { igOracle with gateDraw := 0 }).saves = 0
      ∧ (V1.processMessageWithGemini igCfg igHist (fun _ => false) igTask
          { igOracle with gateDraw := 0 }).effects = [Effect.classify])) :=
  ⟨⟨by decide, by decide, by decide, Or.inl (Or.inl (by decide)), by decide,
    by with_unfolding_all decide, rfl⟩,
   ignore_appends_only_in_session_variant c3Cfg2 "bot" c3St c3Event c3Oracle "ok then"
     (by decide) (by decide) (by decide) (Or.inl (Or.inl (by decide))) (by decide)
     (by with_unfolding_all decide) rfl
     igCfg igHist (fun _ => false) igTask { igOracle with gateDraw := 0 } (some "IGNORE")
     (by decide) (by decide) rfl (by decide)⟩

/-- C4: when the message is not explicitly addressed and carries no
attachment, and the classifier call errors or answers non-affirmatively
(`shouldBotReply` is `false`, which by its definition covers exactly the
thrown and the no-"yes" outcomes), the task ends early: the persisted
history map is untouched, nothing is saved, no action branch is entered,
and the only call issued is the classifier call itself. -/
theorem classifier_fail_closed (cfg : V2.Config) (selfID : String) (st : V2.State)
    (e : V2.Event) (o : V2.Oracle)
    (htype : e.type = "message") (hself : e.senderID ≠ selfID)
    (hreset : ¬(lowerStr e.body = "!history reset" ∧ e.threadID = e.senderID))
    (haddr : strIncludes (lowerStr (V2.processAttachment e.body e.attachments).1) cfg.BOT_NAME = false)
    (hatt : e.attachments = [])
    (hsbr : V2.shouldBotReply o.classifierText = false) :
    (V2.processMessage cfg selfID st e o).st.persistedHistory = st.persistedHistory
    ∧ (V2.processMessage cfg selfID st e o).saves = 0
    ∧ (V2.processMessage cfg selfID st e o).branch = none
    ∧ (V2.processMessage cfg selfID st e o).effects = [Effect.classify] := by
  rw [hatt] at haddr
  simp only [V2.processMessage]
  rw [if_pos ⟨htype, hself⟩, if_neg hreset]
  simp [hatt, haddr, hsbr, ensureSession_persisted]

/-- C4 witness: with a thrown classifier call on an unaddressed message the
task ends early with no state change. -/
theorem classifier_fail_closed_witness :
    (c4Event.type = "message" ∧ c4Event.senderID ≠ "bot"
      ∧ ¬(lowerStr c4Event.body = "!history reset" ∧ c4Event.threadID = c4Event.senderID)
      ∧ strIncludes (lowerStr (V2.processAttachment c4Event.body c4Event.attachments).1)
          c3Cfg2.BOT_NAME = false
      ∧ c4Event.attachments = []
      ∧ V2.shouldBotReply c4Oracle.classifierText = false)
    ∧ ((V2.processMessage c3Cfg2 "bot" c3St c4Event c4Oracle).st.persistedHistory
          = c3St.persistedHistory
      ∧ (V2.processMessage c3Cfg2 "bot" c3St c4Event c4Oracle).saves = 0
      ∧ (V2.processMessage c3Cfg2 "bot" c3St c4Event c4Oracle).branch = none
      ∧ (V2.processMessage c3Cfg2 "bot" c3St c4Event c4Oracle).effects = [Effect.classify]) :=
  ⟨⟨by decide, by decide, by decide, by decide, rfl, by decide⟩,
   classifier_fail_closed c3Cfg2 "bot" c3St c4Event c4Oracle
     (by decide) (by decide) (by decide) (by decide) rfl (by decide)⟩

/-- C5: a message whose (lowercased) text contains the configured bot name,
or that carries at least one attachment, short-circuits the respond
decision to true for every classifier oracle: the DECIDE stage is reached
(the branch equals the drawn action) and no classifier call is issued. -/
theorem explicit_address_short_circuit (cfg : V2.Config) (selfID : String) (st : V2.State)
    (e : V2.Event) (o : V2.Oracle)
    (htype : e.type = "message") (hself : e.senderID ≠ selfID)
    (hreset : ¬(lowerStr e.body = "!history reset" ∧ e.threadID = e.senderID))
    (haddr : strIncludes (lowerStr (V2.processAttachment e.body e.attachments).1) cfg.BOT_NAME = true
      ∨ e.attachments ≠ []) :
    (V2.processMessage cfg selfID st e o).branch
        = some (V2.getReplyAction cfg.pReply cfg.pReact o.actionDraw)
    ∧ Effect.classify ∉ (V2.processMessage cfg selfID st e o).effects := by
  have hcond : strIncludes (lowerStr (V2.processAttachment e.body e.attachments).1) cfg.BOT_NAME = true
      ∨ ¬ e.attachments.isEmpty = true := by
    rcases haddr with h | h
    · exact Or.inl h
    · refine Or.inr ?_
      cases hgo : e.attachments with
      | nil => exact absurd hgo h
      | cons a as => simp [hgo]
  simp only [V2.processMessage]
  rw [if_pos ⟨htype, hself⟩, if_neg hreset]
  simp only [if_pos hcond]
  rcases getReplyAction_tri cfg.pReply cfg.pReact o.actionDraw with hA | hA | hA <;>
    rw [hA] <;> cases hrep : o.sessionReply <;>
    simp [hrep]

/-- C5 witness: an addressed message with a throwing classifier oracle
still reaches DECIDE and issues no classifier call. -/
theorem explicit_address_short_circuit_witness :
    (c3Event.type = "message" ∧ c3Event.senderID ≠ "bot"
      ∧ ¬(lowerStr c3Event.body = "!history reset" ∧ c3Event.threadID = c3Event.senderID)
      ∧ (strIncludes (lowerStr (V2.processAttachment c3Event.body c3Event.attachments).1)
          c3Cfg2.BOT_NAME = true ∨ c3Event.attachments ≠ []))
    ∧ ((V2.processMessage c3Cfg2 "bot" c3St c3Event c3Oracle).branch
        = some (V2.getReplyAction c3Cfg2.pReply c3Cfg2.pReact c3Oracle.actionDraw)
      ∧ Effect.classify ∉ (V2.processMessage c3Cfg2 "bot" c3St c3Event c3Oracle).effects) :=
  ⟨⟨by decide, by decide, by decide, Or.inl (by decide)⟩,
   explicit_address_short_circuit c3Cfg2 "bot" c3St c3Event c3Oracle
     (by decide) (by decide) (by decide) (Or.inl (by decide))⟩

/-- C7 counterexample: in the session-based variant a `"!history reset"`
from a self-addressed thread whose conversation has non-empty persisted
history but no live chat session leaves the history non-empty and persists
nothing (the guard checks the session cache, not the history), contradicting
the claim that the reset always clears and persists. -/
theorem reset_counterexample_no_live_session :
    c7St.persistedHistory "u1" = [⟨"user", ["hi"]⟩]
    ∧ c7St.chatSessions "u1" = none
    ∧ (V2.processMessage c3Cfg2 "bot" c7St c7Event c7Oracle).st.persistedHistory "u1"
        = [⟨"user", ["hi"]⟩]
    ∧ (V2.processMessage c3Cfg2 "bot" c7St c7Event c7Oracle).saves = 0 := by
  refine ⟨by decide, rfl, by decide, by decide⟩

/-- C7 amended: the reset clears and persists in the flat-history variant
for any allow-listed sender (with no classifier call and no decision
stage), and in the session-based variant exactly when a live chat session
exists for the self-addressed thread; with no live session the history is
left as it was. -/
theorem reset_clears_history_amended
    (cfg1 : V1.Config) (hist : String → List Turn) (q : String → Bool)
    (task : V1.Task) (o1 : V1.Oracle)
    (hadm : cfg1.ADMIN_UIDS.contains task.senderID = true)
    (hbody : trimStr task.body = "!history reset")
    (cfg : V2.Config) (selfID : String) (st : V2.State) (e : V2.Event) (o : V2.Oracle)
    (sess : List Turn)
    (htype : e.type = "message") (hself : e.senderID ≠ selfID)
    (hbody2 : lowerStr e.body = "!history reset") (hthread : e.threadID = e.senderID)
    (hsess : st.chatSessions e.threadID = some sess) :
    ((V1.processMessageWithGemini cfg1 hist q task o1).history task.threadID = []
      ∧ (V1.processMessageWithGemini cfg1 hist q task o1).saves = 1
      ∧ (V1.processMessageWithGemini cfg1 hist q task o1).effects = [])
    ∧ ((V2.processMessage cfg selfID st e o).st.persistedHistory e.threadID = []
      ∧ (V2.processMessage cfg selfID st e o).saves = 1
      ∧ (V2.processMessage cfg selfID st e o).branch = none
      ∧ Effect.classify ∉ (V2.processMessage cfg selfID st e o).effects) := by
  constructor
  · unfold V1.processMessageWithGemini
    rw [if_pos ⟨hadm, hbody⟩]
    simp
  · simp only [V2.processMessage]
    rw [if_pos ⟨htype, hself⟩, if_pos ⟨hbody2, hthread⟩]
    simp [hsess]

/-- C7-amended witness: both halves hold at concrete inputs. -/
theorem reset_clears_history_amended_witness :
    (c7Cfg1.ADMIN_UIDS.contains c7Task.senderID = true
      ∧ trimStr c7Task.body = "!history reset"
      ∧ c7Event.type = "message" ∧ c7Event.senderID ≠ "bot"
      ∧ lowerStr c7Event.body = "!history reset" ∧ c7Event.threadID = c7Event.senderID
      ∧ c7StLive.chatSessions c7Event.threadID = some [⟨"user", ["hi"]⟩])
    ∧ (((V1.processMessageWithGemini c7Cfg1 igHist (fun _ => false) c7Task igOracle).history
          c7Task.threadID = []
      ∧ (V1.processMessageWithGemini c7Cfg1 igHist (fun _ => false) c7Task igOracle).saves = 1
      ∧ (V1.processMessageWithGemini c7Cfg1 igHist (fun _ => false) c7Task igOracle).effects = [])
    ∧ ((V2.processMessage c3Cfg2 "bot" c7StLive c7Event c7Oracle).st.persistedHistory
          c7Event.threadID = []
      ∧ (V2.processMessage c3Cfg2 "bot" c7StLive c7Event c7Oracle).saves = 1
      ∧ (V2.processMessage c3Cfg2 "bot" c7StLive c7Event c7Oracle).branch = none
      ∧ Effect.classify ∉ (V2.processMessage c3Cfg2 "bot" c7StLive c7Event c7Oracle).effects)) :=
  ⟨⟨by decide, by decide, by decide, by decide, by decide, by decide, by decide⟩,
   reset_clears_history_amended c7Cfg1 igHist (fun _ => false) c7Task igOracle
     (by decide) (by decide)
     c3Cfg2 "bot" c7StLive c7Event c7Oracle [⟨"user", ["hi"]⟩]
     (by decide) (by decide) (by decide) (by decide) (by decide)⟩

/-- C6: for nonnegative weights summing to at most one and a draw in
`[0, 1)`, `getReplyAction` returns the reply action exactly on the first
segment `[0, pReply)`, the react action exactly on `[pReply, pReply +
pReact)`, and IGNORE exactly on the remainder; the third variant computes
the same partition. -/
theorem reply_action_partition (p q r : ℚ) (hp : 0 ≤ p) (hq : 0 ≤ q)
    (hpq : p + q ≤ 1) (hr0 : 0 ≤ r) (hr1 : r < 1) :
    (V2.getReplyAction p q r = "MESSAGE" ↔ r < p)
    ∧ (V2.getReplyAction p q r = "REACTION" ↔ p ≤ r ∧ r < p + q)
    ∧ (V2.getReplyAction p q r = "IGNORE" ↔ p + q ≤ r)
    ∧ V3.getReplyAction p q r = V2.getReplyAction p q r := by
  unfold V2.getReplyAction V3.getReplyAction
  simp only [zero_add]
  split_ifs with h1 h2
  · exact ⟨by simp [h1],
      iff_of_false (by decide) (fun hx => absurd h1 (not_lt.mpr hx.1)),
      iff_of_false (by decide) (by intro hge; linarith),
      by trivial⟩
  · exact ⟨iff_of_false (by decide) h1,
      iff_of_true (by trivial) ⟨not_lt.mp h1, h2⟩,
      iff_of_false (by decide) (by intro hge; linarith),
      by trivial⟩
  · exact ⟨iff_of_false (by decide) h1,
      iff_of_false (by decide) (fun hx => h2 hx.2),
      iff_of_true (by trivial) (not_lt.mp h2),
      by trivial⟩

/-- C6 witness: weights reply 1, react 0, draw 0 satisfy the hypotheses and
the partition picks the reply action. -/
theorem reply_action_partition_witness :
    ((0:ℚ) ≤ 1 ∧ (0:ℚ) ≤ 0 ∧ (1:ℚ) + 0 ≤ 1 ∧ (0:ℚ) ≤ 0 ∧ (0:ℚ) < 1)
    ∧ ((V2.getReplyAction 1 0 0 = "MESSAGE" ↔ (0:ℚ) < 1)
      ∧ (V2.getReplyAction 1 0 0 = "REACTION" ↔ (1:ℚ) ≤ 0 ∧ (0:ℚ) < 1 + 0)
      ∧ (V2.getReplyAction 1 0 0 = "IGNORE" ↔ (1:ℚ) + 0 ≤ 0)
      ∧ V3.getReplyAction 1 0 0 = V2.getReplyAction 1 0 0) :=
  ⟨by refine ⟨by decide, by decide, by with_unfolding_all decide, by decide, by decide⟩,
   reply_action_partition 1 0 0 (by decide) (by decide)
     (by with_unfolding_all decide) (by decide) (by decide)⟩

/-- C8: the queue worker catches a failing task and the drain loop still
processes every later task of the same queue: the outcome list has one
entry per task, the entry at any position is the worker outcome of exactly
the task at that position (whatever the earlier tasks did), and draining a
queue extension continues after the original tasks. -/
theorem worker_error_does_not_stop_queue {τ : Type} (run : τ → Except String Unit)
    (ts : List τ) (i : Nat) (hi : i < ts.length) :
    (Q.drainQueue run ts).length = ts.length
    ∧ (∀ hL : i < (Q.drainQueue run ts).length,
        (Q.drainQueue run ts).get ⟨i, hL⟩
          = (ts.get ⟨i, hi⟩, Q.workerStep run (ts.get ⟨i, hi⟩)))
    ∧ (∀ ts' : List τ,
        Q.drainQueue run (ts ++ ts') = Q.drainQueue run ts ++ Q.drainQueue run ts') := by
  refine ⟨drain_length run ts, ?_, fun ts' => drain_append run ts ts'⟩
  induction ts generalizing i with
  | nil => exact absurd hi (Nat.not_lt_zero i)
  | cons t rest ih =>
    intro hL
    cases i with
    | zero => rfl
    | succ n => exact ih n (Nat.lt_of_succ_lt_succ hi) _

/-- C8 witness: with task 0 failing, the drained queue still contains the
outcome of task 1, processed successfully. -/
theorem worker_error_does_not_stop_queue_witness :
    (1 < ([0, 1] : List Nat).length)
    ∧ (Q.drainQueue runFail0 [0, 1]).get ⟨1, by decide⟩ = (1, true) :=
  ⟨by decide,
   by
    have h := (worker_error_does_not_stop_queue runFail0 [0, 1] 1 (by decide)).2.1
    exact h (by decide)⟩

/-- Per-queue invariant of the scheduler model: at every reachable state,
each conversation queue has at most one running task, and its arrival order
is exactly completed tasks, then the running task, then the pending tasks —
so tasks complete in FIFO arrival order. -/
theorem queue_inv (s : Sched.SysState) (hs : Sched.Reachable s) :
    ∀ id, (s id).running.length ≤ 1
      ∧ (s id).arrived = (s id).done ++ ((s id).running ++ (s id).pending) := by
  unfold Sched.Reachable at hs
  induction hs with
  | refl =>
    intro id
    exact ⟨by simp [Sched.initSys, Sched.initQ], by simp [Sched.initSys, Sched.initQ]⟩
  | tail hsteps hstep ih =>
    intro id
    cases hstep with
    | enqueue id' t =>
      by_cases hid : id = id'
      · subst hid
        rcases ih id with ⟨h1, h2⟩
        refine ⟨by simpa [Function.update_same] using h1, ?_⟩
        simp only [Function.update_same]
        simp [h2]
      · rcases ih id with ⟨h1, h2⟩
        simp only [Function.update_noteq hid]
        exact ⟨h1, h2⟩
    | start id' t rest hr hp =>
      by_cases hid : id = id'
      · subst hid
        rcases ih id with ⟨h1, h2⟩
        refine ⟨by simp [Function.update_same], ?_⟩
        simp only [Function.update_same]
        rw [hr, hp] at h2
        simpa using h2
      · rcases ih id with ⟨h1, h2⟩
        simp only [Function.update_noteq hid]
        exact ⟨h1, h2⟩
    | finish id' t hr =>
      by_cases hid : id = id'
      · subst hid
        rcases ih id with ⟨h1, h2⟩
        refine ⟨by simp [Function.update_same], ?_⟩
        simp only [Function.update_same]
        rw [hr] at h2
        simpa using h2
      · rcases ih id with ⟨h1, h2⟩
        simp only [Function.update_noteq hid]
        exact ⟨h1, h2⟩

/-- Concrete schedule: task 1 (conversation A) is enqueued before task 2
(conversation B), yet task 2 completes while task 1 is still pending. -/
theorem trace_ok :
    Sched.Reachable sE1
    ∧ Relation.ReflTransGen Sched.QStep sE1 sE4
    ∧ (sE1 "A").arrived = [1] ∧ (sE1 "B").arrived = []
    ∧ (sE4 "B").done = [2] ∧ (sE4 "A").done = [] ∧ (sE4 "A").pending = [1] := by
  have h1 : Sched.QStep Sched.initSys sE1 := Sched.QStep.enqueue _ "A" 1
  have h2 : Sched.QStep sE1 sE2 := Sched.QStep.enqueue _ "B" 2
  have h3 : Sched.QStep sE2 sE3 := Sched.QStep.start _ "B" 2 [] (by decide) (by decide)
  have h4 : Sched.QStep sE3 sE4 := Sched.QStep.finish _ "B" 2 (by decide)
  refine ⟨Relation.ReflTransGen.single h1,
    Relation.ReflTransGen.tail (Relation.ReflTransGen.tail
      (Relation.ReflTransGen.single h2) h3) h4,
    by decide, by decide, by decide, by decide, by decide⟩

/-- C9: in every reachable state of the per-conversation scheduler, each
conversation id has at most one task in flight, and its arrival order
equals completed tasks ++ running task ++ pending tasks (strict FIFO
per id); moreover there is a reachable schedule in which a task enqueued
for conversation A before conversation B receives its task is still
pending while B has already completed — distinct ids impose no mutual
ordering. -/
theorem per_thread_fifo_one_in_flight (s : Sched.SysState) (hs : Sched.Reachable s)
    (id : String) :
    ((s id).running.length ≤ 1
      ∧ (s id).arrived = (s id).done ++ ((s id).running ++ (s id).pending))
    ∧ (∃ s1 s2 : Sched.SysState, Sched.Reachable s1
        ∧ Relation.ReflTransGen Sched.QStep s1 s2
        ∧ (s1 "A").arrived = [1] ∧ (s1 "B").arrived = []
        ∧ (s2 "B").done = [2] ∧ (s2 "A").done = [] ∧ (s2 "A").pending = [1]) :=
  ⟨queue_inv s hs id,
   ⟨sE1, sE4, trace_ok.1, trace_ok.2.1, trace_ok.2.2.1, trace_ok.2.2.2.1,
    trace_ok.2.2.2.2.1, trace_ok.2.2.2.2.2.1, trace_ok.2.2.2.2.2.2⟩⟩

/-- C9 witness: the invariant instantiated at the initial state. -/
theorem per_thread_fifo_one_in_flight_witness :
    (((Sched.initSys "A").running.length ≤ 1
      ∧ (Sched.initSys "A").arrived
          = (Sched.initSys "A").done
            ++ ((Sched.initSys "A").running ++ (Sched.initSys "A").pending))
    ∧ (∃ s1 s2 : Sched.SysState, Sched.Reachable s1
        ∧ Relation.ReflTransGen Sched.QStep s1 s2
        ∧ (s1 "A").arrived = [1] ∧ (s1 "B").arrived = []
        ∧ (s2 "B").done = [2] ∧ (s2 "A").done = [] ∧ (s2 "A").pending = [1])) :=
  per_thread_fifo_one_in_flight Sched.initSys Relation.ReflTransGen.refl "A"

/-- C10: in the first source variant, once the admin-reset branch is not
taken, a uniform draw above `RESPONSE_PROBABILITY` returns immediately:
the history map, the queue map, the outbound-call list and the snapshot
save count are all untouched, for every message body — including one that
names the bot — and no classifier call is issued. -/
theorem response_gate_short_circuit (cfg : V1.Config) (hist : String → List Turn)
    (q : String → Bool) (task : V1.Task) (o : V1.Oracle)
    (hreset : ¬(cfg.ADMIN_UIDS.contains task.senderID = true
        ∧ trimStr task.body = "!history reset"))
    (hgate : cfg.RESPONSE_PROBABILITY < o.gateDraw) :
    (V1.processMessageWithGemini cfg hist q task o).history = hist
    ∧ (V1.processMessageWithGemini cfg hist q task o).queues = q
    ∧ (V1.processMessageWithGemini cfg hist q task o).effects = []
    ∧ (V1.processMessageWithGemini cfg hist q task o).saves = 0 := by
  unfold V1.processMessageWithGemini
  rw [if_neg hreset, if_pos hgate]
  exact ⟨rfl, rfl, rfl, rfl⟩

/-- C10 witness: at the concrete input the gate drops an explicitly
addressed message with state, queues, effects and saves untouched. -/
theorem response_gate_short_circuit_witness :
    (¬(gateCfg.ADMIN_UIDS.contains gateTask.senderID = true
        ∧ trimStr gateTask.body = "!history reset")
      ∧ gateCfg.RESPONSE_PROBABILITY < gateOracle.gateDraw)
    ∧ ((V1.processMessageWithGemini gateCfg (fun _ => []) (fun _ => false) gateTask gateOracle).history
          = (fun _ => [])
      ∧ (V1.processMessageWithGemini gateCfg (fun _ => []) (fun _ => false) gateTask gateOracle).queues
          = (fun _ => false)
      ∧ (V1.processMessageWithGemini gateCfg (fun _ => []) (fun _ => false) gateTask gateOracle).effects = []
      ∧ (V1.processMessageWithGemini gateCfg (fun _ => []) (fun _ => false) gateTask gateOracle).saves = 0) :=
  ⟨⟨by decide, by decide⟩,
   response_gate_short_circuit gateCfg (fun _ => []) (fun _ => false) gateTask gateOracle
     (by decide) (by decide)⟩

end ChatBot
